import Mathlib

/-!
Verification of the ai-video-editor clip selection pipeline.

Shallow embedding of the Python sources of `atef1995/ai-video-editor`:

* `src/python/ai_pipeline.py` — `AIPipeline.process_video` and
  `AIPipeline.generate_clips_from_analysis`
* `src/python/analysis/content_analyzer.py` — `ContentAnalyzer.analyze_content`
* `src/python/transcription/whisper_transcriber.py` — `WhisperTranscriber.format_srt_time`
* `src/python/transcription/overlay_subtitles.py` — module-level `format_srt_time`

Times and scores are modelled as rationals (`ℚ`); Python dicts become
structures; exceptions become explicit control flow; the external
collaborators (video renderer, transcriber, ffmpeg) are modelled as
oracles supplied to the pure functions that orchestrate them.
-/

namespace AIVideoEditor

/-- One entry of the `clips` list of a GPT analysis result, as built in
`content_analyzer.py` (`clips_data.append({"start_time": ..., "end_time": ...,
"description": ...})`).  `description` is optional here because
`generate_clips_from_analysis` reads it with
`candidate.get('description', 'AI-selected clip')`. -/
structure GptClip where
  start_time : ℚ
  end_time : ℚ
  description : Option String
deriving DecidableEq, Repr

/-- The clip settings dictionary of `AIPipeline.__init__` restricted to the
keys `generate_clips_from_analysis` reads
(`min_duration`, `max_duration`, `max_clips`). -/
structure ClipSettings where
  min_duration : ℚ
  max_duration : ℚ
  max_clips : ℕ
deriving DecidableEq, Repr

/-- The defaults of `AIPipeline.__init__`:
`{'min_duration': 30, 'max_duration': 90, 'max_clips': 5, ...}`. -/
def defaultClipSettings : ClipSettings :=
  { min_duration := 30, max_duration := 90, max_clips := 5 }

/-- The hard-coded `absolute_minimum = 5` of `generate_clips_from_analysis`. -/
def absolute_minimum : ℚ := 5

/-- The `clip_info` dictionary appended to `clips` in
`generate_clips_from_analysis`, restricted to the pure fields (file paths and
wall-clock `created_at` are produced by collaborators and the system clock). -/
structure ClipInfo where
  id : ℕ
  start_time : ℚ
  end_time : ℚ
  duration : ℚ
  description : String
deriving DecidableEq, Repr

/-- The description field computation of the emitted clip dictionary:
`description[:200] + '...' if len(description) > 200 else description`
(line 321 of `ai_pipeline.py`). -/
def truncateDescription (description : String) : String :=
  if description.length > 200 then description.take 200 ++ "..." else description

/-- The body of the `for i, candidate in enumerate(selected_candidates)` loop
of `generate_clips_from_analysis`, for index `i` and candidate `c`.
`render_ok i` tells whether the collaborator calls
(`create_clip` / `generate_thumbnail`) for this index succeed; when one of
them raises, the `except` clause skips the candidate (`continue`), which is
`none` here.  Returns `none` exactly when the loop contributes no entry to
`clips` for this candidate. -/
def processCandidate (s : ClipSettings) (render_ok : ℕ → Bool)
    (i : ℕ) (c : GptClip) : Option ClipInfo :=
  let start_time := c.start_time
  let end_time := c.end_time
  let description := c.description.getD "AI-selected clip"
  let duration := end_time - start_time
  if duration < absolute_minimum then
    none
  else
    let end_time := if duration > s.max_duration then start_time + s.max_duration else end_time
    if render_ok i then
      some { id := i + 1
             start_time := start_time
             end_time := end_time
             duration := end_time - start_time
             description := truncateDescription description }
    else
      none

/-- The method `AIPipeline.generate_clips_from_analysis`, clips list of the
analysis already extracted (`gpt_clips = analysis.get('clips', [])`).  The code takes
`selected_candidates = gpt_clips[:max_clips]` and runs the loop above over
`enumerate(selected_candidates)`. -/
def generate_clips_from_analysis (s : ClipSettings) (render_ok : ℕ → Bool)
    (gpt_clips : List GptClip) : List ClipInfo :=
  ((gpt_clips.take s.max_clips).enum).filterMap fun p =>
    processCandidate s render_ok p.1 p.2

/-- The dictionary returned by `ContentAnalyzer.analyze_content`, restricted
to the two keys the pipeline reads (`clips`, `error`). -/
structure AnalysisResult where
  clips : List GptClip
  error : Option String
deriving DecidableEq, Repr

/-- Positional parameters of the definition
`def analyze_content(self, transcript_data: Dict)` in `content_analyzer.py`
(line 184).  The signature has no defaults and no varargs. -/
def analyze_content_params : List String := ["self", "transcript_data"]

/-- Number of positional arguments supplied where `AIPipeline.process_video`
calls `self.analyzer.analyze_content(transcript_result, self.clip_settings)`
(line 175 of `ai_pipeline.py`): the bound `self` plus two explicit
arguments. -/
def process_video_analyze_content_args : ℕ := 3

/-- Python calling convention for a signature with no default values and no
varargs: the call binds iff the number of positional arguments equals the
number of parameters; otherwise the interpreter raises `TypeError`. -/
def pythonCallOk (params : List String) (numArgs : ℕ) : Bool :=
  numArgs = params.length

/-- The message of the `TypeError` raised by the mismatched call, as
formatted by CPython (caught by the `except` clause of `process_video` and
stringified into the error result). -/
def analyze_content_TypeError : String :=
  "ContentAnalyzer.analyze_content() takes 2 positional arguments but 3 were given"

/-- Outcomes of the external collaborators for one `process_video` run:
whether `VideoProcessor.process_video_for_analysis` reports success (and its
error message when not), whether the transcription result carries an `error`
key, what `ContentAnalyzer.analyze_content` would return if its invocation
bound, whether rendering each clip index succeeds, and the wall clock. -/
structure PipelineEnv where
  video_prep_success : Bool
  video_prep_error : String
  transcript_error : Option String
  analysis : AnalysisResult
  render_ok : ℕ → Bool
  now : ℚ

/-- Result of `AIPipeline.process_video`: either the success dictionary
(restricted to `clips`, `total_clips_generated`, `processing_time`) or the
failure dictionary `{'success': False, 'error': ..., 'video_path': ...,
'timestamp': ...}` built in the `except` clause. -/
inductive ProcessVideoResult where
  | ok (clips : List ClipInfo) (total_clips_generated : ℕ) (processing_time : ℚ)
  | err (error : String) (video_path : String) (timestamp : ℚ)
deriving DecidableEq, Repr

/-- The method `AIPipeline.process_video`.  `cut_quiet_parts` catches its own
failures and falls back to the original video, so it never aborts the run.
Each subsequent stage raises on failure; every raise is caught by the single
`except Exception` clause, which returns the structured failure dictionary.
The call to `analyze_content` passes three positional arguments to a
two-parameter method, so when control reaches it the interpreter raises
`TypeError` before the method body runs. -/
def process_video (env : PipelineEnv) (s : ClipSettings)
    (video_path : String) : ProcessVideoResult :=
  if env.video_prep_success = false then
    .err ("Video preparation failed: " ++ env.video_prep_error) video_path env.now
  else
    match env.transcript_error with
    | some e => .err ("Transcription failed: " ++ e) video_path env.now
    | none =>
      if pythonCallOk analyze_content_params process_video_analyze_content_args then
        match env.analysis.error with
        | some e => .err ("Content analysis failed: " ++ e) video_path env.now
        | none =>
          let clips := generate_clips_from_analysis s env.render_ok env.analysis.clips
          .ok clips clips.length env.now
      else
        .err analyze_content_TypeError video_path env.now

/-- Python's `%` operator on numbers with a nonzero divisor:
`a % b = a - b * floor(a / b)`, so the result lies in `[0, b)` for `b > 0`. -/
def pymod (a b : ℚ) : ℚ := a - b * ⌊a / b⌋

/-- Python's format specifier `0Nd` applied to an integer: decimal rendering
left-padded with zeros to the requested width. -/
def formatInt (width : ℕ) (n : ℤ) : String :=
  let s := toString n
  if s.length < width then String.mk (List.replicate (width - s.length) '0') ++ s else s

namespace WhisperTranscriber

/-- The method `WhisperTranscriber.format_srt_time` of
`whisper_transcriber.py` (lines 126-133).  Python truncation `int(...)`
coincides with the floor on each of the four values: `seconds // 3600` is
already a floor, and the three `%` results are non-negative because their
divisors are positive. -/
def format_srt_time (seconds : ℚ) : String :=
  let hours : ℤ := ⌊seconds / 3600⌋
  let minutes : ℤ := ⌊pymod seconds 3600 / 60⌋
  let secs : ℤ := ⌊pymod seconds 60⌋
  let milliseconds : ℤ := ⌊pymod seconds 1 * 1000⌋
  formatInt 2 hours ++ ":" ++ formatInt 2 minutes ++ ":" ++ formatInt 2 secs
    ++ "," ++ formatInt 3 milliseconds

end WhisperTranscriber

namespace OverlaySubtitles

/-- The module-level function `format_srt_time` of `overlay_subtitles.py`
(lines 330-336), embedded independently of the
`WhisperTranscriber` method. -/
def format_srt_time (seconds : ℚ) : String :=
  let hours : ℤ := ⌊seconds / 3600⌋
  let minutes : ℤ := ⌊pymod seconds 3600 / 60⌋
  let secs : ℤ := ⌊pymod seconds 60⌋
  let milliseconds : ℤ := ⌊pymod seconds 1 * 1000⌋
  formatInt 2 hours ++ ":" ++ formatInt 2 minutes ++ ":" ++ formatInt 2 secs
    ++ "," ++ formatInt 3 milliseconds

end OverlaySubtitles

/-- Render oracle for runs in which every `create_clip` / `generate_thumbnail`
collaborator call succeeds. -/
def renderAll : ℕ → Bool := fun _ => true

/-- A run whose collaborators all succeed: video preparation reports success,
the transcription result carries no error, and the analysis service would
return no clips and no error. -/
def sampleEnv : PipelineEnv :=
  { video_prep_success := true
    video_prep_error := ""
    transcript_error := none
    analysis := { clips := [], error := none }
    render_ok := renderAll
    now := 0 }

/-- A run whose video-preparation stage fails. -/
def failedPrepEnv : PipelineEnv :=
  { video_prep_success := false
    video_prep_error := "no video stream found"
    transcript_error := none
    analysis := { clips := [], error := none }
    render_ok := renderAll
    now := 42 }

/-!
Helper lemmas shared by the claim theorems below: an explicit description of
when the loop body emits a clip, and a characterisation of membership in the
final clip list.
-/

theorem processCandidate_eq_some_iff {s : ClipSettings} {r : ℕ → Bool} {i : ℕ}
    {c : GptClip} {info : ClipInfo} :
    processCandidate s r i c = some info ↔
      ¬ c.end_time - c.start_time < absolute_minimum ∧ r i = true ∧
      info = { id := i + 1
               start_time := c.start_time
               end_time := if c.end_time - c.start_time > s.max_duration then
                   c.start_time + s.max_duration else c.end_time
               duration := (if c.end_time - c.start_time > s.max_duration then
                   c.start_time + s.max_duration else c.end_time) - c.start_time
               description := truncateDescription (c.description.getD "AI-selected clip") } := by
  by_cases h1 : c.end_time - c.start_time < absolute_minimum
  · simp [processCandidate, h1]
  · by_cases h2 : r i
    · simp [processCandidate, h1, h2, eq_comm]
    · simp [processCandidate, h1, h2]

theorem processCandidate_eq_none_iff {s : ClipSettings} {r : ℕ → Bool} {i : ℕ}
    {c : GptClip} :
    processCandidate s r i c = none ↔
      c.end_time - c.start_time < absolute_minimum ∨ r i = false := by
  by_cases h1 : c.end_time - c.start_time < absolute_minimum
  · simp [processCandidate, h1]
  · by_cases h2 : r i
    · simp [processCandidate, h1, h2]
    · simp [processCandidate, h1, h2]

theorem mem_generate_clips_iff {s : ClipSettings} {r : ℕ → Bool}
    {cs : List GptClip} {info : ClipInfo} :
    info ∈ generate_clips_from_analysis s r cs ↔
      ∃ i c, i < s.max_clips ∧ cs[i]? = some c ∧
        processCandidate s r i c = some info := by
  unfold generate_clips_from_analysis
  rw [List.mem_filterMap]
  constructor
  · rintro ⟨⟨i, c⟩, hmem, hp⟩
    rw [List.mem_enum_iff_getElem?] at hmem
    have hi : i < s.max_clips := by
      rcases List.getElem?_eq_some_iff.mp hmem with ⟨hlen, _⟩
      have := List.length_take_le s.max_clips cs
      omega
    refine ⟨i, c, hi, ?_, hp⟩
    rwa [List.getElem?_take_of_lt hi] at hmem
  · rintro ⟨i, c, hi, hc, hp⟩
    refine ⟨(i, c), ?_, hp⟩
    rw [List.mem_enum_iff_getElem?]
    simpa [List.getElem?_take_of_lt hi] using hc

theorem pairwise_fst_lt_enumFrom {α : Type _} (n : ℕ) (l : List α) :
    (l.enumFrom n).Pairwise fun p q => p.1 < q.1 := by
  induction l generalizing n with
  | nil => simp
  | cons a l ih =>
    refine List.Pairwise.cons ?_ (ih (n + 1))
    intro q hq
    rcases q with ⟨j, b⟩
    have := (List.mk_mem_enumFrom_iff_le_and_getElem?_sub.mp hq).1
    simpa using by omega

theorem generate_clips_single_kept :
    generate_clips_from_analysis defaultClipSettings renderAll
        [⟨0, 40, some "kept"⟩] = [⟨1, 0, 40, 40, "kept"⟩] := by
  simp only [generate_clips_from_analysis, processCandidate, defaultClipSettings, renderAll,
    absolute_minimum, truncateDescription, List.take, List.enum, List.enumFrom]
  norm_num [List.filterMap_cons, show ¬ (200 < "kept".length) by decide]

theorem generate_clips_drop_then_kept :
    generate_clips_from_analysis defaultClipSettings renderAll
        [⟨0, 3, some "dropped"⟩, ⟨10, 50, some "kept"⟩] = [⟨2, 10, 50, 40, "kept"⟩] := by
  simp only [generate_clips_from_analysis, processCandidate, defaultClipSettings, renderAll,
    absolute_minimum, truncateDescription, List.take, List.enum, List.enumFrom]
  norm_num [List.filterMap_cons, show ¬ (200 < "kept".length) by decide]

/-- C4: for every analysis result (any list of candidate clips), every render
oracle and every configuration, the number of clips emitted by
`generate_clips_from_analysis` is at most `max_clips`. -/
theorem generate_clips_length_le_max_clips (s : ClipSettings) (r : ℕ → Bool)
    (gpt_clips : List GptClip) :
    (generate_clips_from_analysis s r gpt_clips).length ≤ s.max_clips := by
  unfold generate_clips_from_analysis
  calc (((gpt_clips.take s.max_clips).enum).filterMap fun p =>
          processCandidate s r p.1 p.2).length
      ≤ ((gpt_clips.take s.max_clips).enum).length := List.length_filterMap_le _ _
    _ = (gpt_clips.take s.max_clips).length := List.enum_length
    _ ≤ s.max_clips := List.length_take_le _ _

/-- C5: a candidate whose duration `end_time - start_time` is below the
absolute minimum of 5 seconds is dropped entirely — the loop body yields
nothing for it and no emitted clip carries its id `i + 1` — while a selected
candidate at or above the absolute minimum is not dropped by this check: when
its rendering succeeds it appears in the output. -/
theorem absolute_minimum_drop_and_pass (s : ClipSettings) (r : ℕ → Bool)
    (cs : List GptClip) (i : ℕ) (c : GptClip) (hc : cs[i]? = some c) :
    (c.end_time - c.start_time < absolute_minimum →
      processCandidate s r i c = none ∧
      ∀ info ∈ generate_clips_from_analysis s r cs, info.id ≠ i + 1) ∧
    (absolute_minimum ≤ c.end_time - c.start_time → i < s.max_clips → r i = true →
      ∃ info ∈ generate_clips_from_analysis s r cs, info.id = i + 1) := by
  constructor
  · intro hshort
    have hnone : processCandidate s r i c = none :=
      processCandidate_eq_none_iff.mpr (Or.inl hshort)
    refine ⟨hnone, ?_⟩
    intro info hmem hid
    rcases mem_generate_clips_iff.mp hmem with ⟨j, c', _, hc', hp⟩
    have hjid : info.id = j + 1 := by
      rcases processCandidate_eq_some_iff.mp hp with ⟨_, _, rfl⟩
      rfl
    have hji : j = i := by omega
    subst hji
    rw [hc] at hc'
    cases hc'
    rw [hnone] at hp
    cases hp
  · intro hlong hi hr
    have hp : processCandidate s r i c = some
        { id := i + 1
          start_time := c.start_time
          end_time := if c.end_time - c.start_time > s.max_duration then
              c.start_time + s.max_duration else c.end_time
          duration := (if c.end_time - c.start_time > s.max_duration then
              c.start_time + s.max_duration else c.end_time) - c.start_time
          description := truncateDescription (c.description.getD "AI-selected clip") } :=
      processCandidate_eq_some_iff.mpr ⟨not_lt.mpr hlong, hr, rfl⟩
    exact ⟨_, mem_generate_clips_iff.mpr ⟨i, c, hi, hc, hp⟩, rfl⟩

/-- Witness for C5 at a concrete input: the single candidate `(0, 3)` has
duration 3 below the absolute minimum, so the loop emits nothing for it and
no output clip carries id 1. -/
theorem absolute_minimum_drop_and_pass_witness :
    processCandidate defaultClipSettings renderAll 0 ⟨0, 3, some "short"⟩ = none ∧
      ∀ info ∈ generate_clips_from_analysis defaultClipSettings renderAll
        [⟨0, 3, some "short"⟩], info.id ≠ 0 + 1 :=
  (absolute_minimum_drop_and_pass defaultClipSettings renderAll
      [⟨0, 3, some "short"⟩] 0 ⟨0, 3, some "short"⟩ rfl).1 (by norm_num [absolute_minimum])

/-- C6: with the default settings (`min_duration = 30`, `max_duration = 90`,
absolute minimum 5; the code never extends short clips), a candidate of raw
duration 10 s is kept unchanged as a natural segment, one of 40 s is kept
unchanged, and one of 95 s is trimmed to exactly 90 s by setting
`end = start + max_duration` with `start` fixed. -/
theorem duration_adjustment_examples (a b c : ℚ) :
    generate_clips_from_analysis defaultClipSettings renderAll
      [⟨a, a + 10, some "A"⟩, ⟨b, b + 40, some "B"⟩, ⟨c, c + 95, some "C"⟩] =
    [⟨1, a, a + 10, 10, "A"⟩, ⟨2, b, b + 40, 40, "B"⟩, ⟨3, c, c + 90, 90, "C"⟩] := by
  simp only [generate_clips_from_analysis, processCandidate, defaultClipSettings, renderAll,
    absolute_minimum, truncateDescription, List.take, List.enum, List.enumFrom]
  norm_num [List.filterMap_cons, show ¬ (200 < "A".length) by decide,
    show ¬ (200 < "B".length) by decide, show ¬ (200 < "C".length) by decide]

/-- Witness for C6 at concrete start times 0, 100 and 300. -/
theorem duration_adjustment_examples_witness :
    generate_clips_from_analysis defaultClipSettings renderAll
      [⟨0, 0 + 10, some "A"⟩, ⟨100, 100 + 40, some "B"⟩, ⟨300, 300 + 95, some "C"⟩] =
    [⟨1, 0, 0 + 10, 10, "A"⟩, ⟨2, 100, 100 + 40, 40, "B"⟩, ⟨3, 300, 300 + 90, 90, "C"⟩] :=
  duration_adjustment_examples 0 100 300

/-- C1 counterexample: candidates starting at 10 and at 12 (start distance 2,
below the claimed tolerance of 5) are both emitted — the second is not
dropped as a duplicate, so the claimed pairwise start separation fails. -/
theorem dedup_start_proximity_counterexample :
    (generate_clips_from_analysis defaultClipSettings renderAll
        [⟨10, 50, some "first"⟩, ⟨12, 52, some "second"⟩]).map ClipInfo.start_time
      = [10, 12] ∧ ¬ ((5 : ℚ) ≤ |(10 : ℚ) - 12|) := by
  constructor
  · simp only [generate_clips_from_analysis, processCandidate, defaultClipSettings, renderAll,
      absolute_minimum, truncateDescription, List.take, List.enum, List.enumFrom]
    norm_num [List.filterMap_cons, show ¬ (200 < "first".length) by decide,
      show ¬ (200 < "second".length) by decide]
  · norm_num

/-- C1 amended: `generate_clips_from_analysis` performs no start-time
deduplication at all.  Any two selected candidates that pass the
absolute-minimum duration check and whose renderings succeed both appear in
the output with their original start times, with no constraint relating the
two start times — in particular also when they are less than 5 seconds
apart. -/
theorem no_start_time_dedup (s : ClipSettings) (r : ℕ → Bool) (cs : List GptClip)
    (i j : ℕ) (ci cj : GptClip)
    (hi : i < s.max_clips) (hj : j < s.max_clips)
    (hci : cs[i]? = some ci) (hcj : cs[j]? = some cj)
    (hdi : absolute_minimum ≤ ci.end_time - ci.start_time)
    (hdj : absolute_minimum ≤ cj.end_time - cj.start_time)
    (hri : r i = true) (hrj : r j = true) :
    (∃ a ∈ generate_clips_from_analysis s r cs,
        a.id = i + 1 ∧ a.start_time = ci.start_time) ∧
    (∃ b ∈ generate_clips_from_analysis s r cs,
        b.id = j + 1 ∧ b.start_time = cj.start_time) := by
  constructor
  · have hp : processCandidate s r i ci = some
        { id := i + 1
          start_time := ci.start_time
          end_time := if ci.end_time - ci.start_time > s.max_duration then
              ci.start_time + s.max_duration else ci.end_time
          duration := (if ci.end_time - ci.start_time > s.max_duration then
              ci.start_time + s.max_duration else ci.end_time) - ci.start_time
          description := truncateDescription (ci.description.getD "AI-selected clip") } :=
      processCandidate_eq_some_iff.mpr ⟨not_lt.mpr hdi, hri, rfl⟩
    exact ⟨_, mem_generate_clips_iff.mpr ⟨i, ci, hi, hci, hp⟩, rfl, rfl⟩
  · have hp : processCandidate s r j cj = some
        { id := j + 1
          start_time := cj.start_time
          end_time := if cj.end_time - cj.start_time > s.max_duration then
              cj.start_time + s.max_duration else cj.end_time
          duration := (if cj.end_time - cj.start_time > s.max_duration then
              cj.start_time + s.max_duration else cj.end_time) - cj.start_time
          description := truncateDescription (cj.description.getD "AI-selected clip") } :=
      processCandidate_eq_some_iff.mpr ⟨not_lt.mpr hdj, hrj, rfl⟩
    exact ⟨_, mem_generate_clips_iff.mpr ⟨j, cj, hj, hcj, hp⟩, rfl, rfl⟩

/-- Witness for the amended C1 at the counterexample input: both the clip
starting at 10 and the clip starting at 12 are emitted. -/
theorem no_start_time_dedup_witness :
    (∃ a ∈ generate_clips_from_analysis defaultClipSettings renderAll
        [⟨10, 50, some "first"⟩, ⟨12, 52, some "second"⟩],
        a.id = 0 + 1 ∧ a.start_time = (⟨10, 50, some "first"⟩ : GptClip).start_time) ∧
    (∃ b ∈ generate_clips_from_analysis defaultClipSettings renderAll
        [⟨10, 50, some "first"⟩, ⟨12, 52, some "second"⟩],
        b.id = 1 + 1 ∧ b.start_time = (⟨12, 52, some "second"⟩ : GptClip).start_time) :=
  no_start_time_dedup defaultClipSettings renderAll
    [⟨10, 50, some "first"⟩, ⟨12, 52, some "second"⟩] 0 1
    ⟨10, 50, some "first"⟩ ⟨12, 52, some "second"⟩
    (by norm_num [defaultClipSettings]) (by norm_num [defaultClipSettings])
    rfl rfl
    (by norm_num [absolute_minimum]) (by norm_num [absolute_minimum])
    rfl rfl

/-- C2 counterexample: a candidate with a negative start time is emitted
unchanged — `generate_clips_from_analysis` never clamps `start` to 0 (nor
`end` to the total source duration, which it is not even given), so the
claimed bound `0 ≤ start` fails on the output. -/
theorem clip_bounds_counterexample :
    (generate_clips_from_analysis defaultClipSettings renderAll
        [⟨-10, 50, some "negative start"⟩]).map
          (fun info => (info.start_time, info.end_time))
      = [(-10, 50)] ∧ ¬ ((0 : ℚ) ≤ -10) := by
  constructor
  · simp only [generate_clips_from_analysis, processCandidate, defaultClipSettings, renderAll,
      absolute_minimum, truncateDescription, List.take, List.enum, List.enumFrom]
    norm_num [List.filterMap_cons, show ¬ (200 < "negative start".length) by decide]
  · norm_num

/-- C2 amended: the code performs no clamping; the bounds
`0 ≤ start < end ≤ total_source_duration` hold for the emitted clips exactly
when the incoming candidates already satisfy them: if every candidate has
`0 ≤ start ≤ end ≤ D` and `max_duration` is positive, then every emitted
clip satisfies `0 ≤ start < end ≤ D`. -/
theorem clip_bounds_of_bounded_candidates (s : ClipSettings) (r : ℕ → Bool)
    (cs : List GptClip) (D : ℚ) (hmax : 0 < s.max_duration)
    (hcs : ∀ c ∈ cs, 0 ≤ c.start_time ∧ c.start_time ≤ c.end_time ∧ c.end_time ≤ D) :
    ∀ info ∈ generate_clips_from_analysis s r cs,
      0 ≤ info.start_time ∧ info.start_time < info.end_time ∧ info.end_time ≤ D := by
  intro info hmem
  rcases mem_generate_clips_iff.mp hmem with ⟨i, c, _, hc, hp⟩
  rcases processCandidate_eq_some_iff.mp hp with ⟨hd, _, rfl⟩
  obtain ⟨h0, hse, heD⟩ := hcs c (List.getElem?_mem hc)
  rw [not_lt] at hd
  have h5 : (5 : ℚ) ≤ c.end_time - c.start_time := by
    simpa [absolute_minimum] using hd
  refine ⟨h0, ?_, ?_⟩
  · show c.start_time < if c.end_time - c.start_time > s.max_duration then
        c.start_time + s.max_duration else c.end_time
    split_ifs with htrim
    · linarith
    · linarith
  · show (if c.end_time - c.start_time > s.max_duration then
        c.start_time + s.max_duration else c.end_time) ≤ D
    split_ifs with htrim
    · linarith
    · exact heD

/-- Witness for the amended C2: for the single in-bounds candidate `(0, 40)`
and total duration 100, the emitted clip satisfies the bounds. -/
theorem clip_bounds_of_bounded_candidates_witness :
    0 ≤ (⟨1, 0, 40, 40, "kept"⟩ : ClipInfo).start_time ∧
      (⟨1, 0, 40, 40, "kept"⟩ : ClipInfo).start_time
        < (⟨1, 0, 40, 40, "kept"⟩ : ClipInfo).end_time ∧
      (⟨1, 0, 40, 40, "kept"⟩ : ClipInfo).end_time ≤ 100 := by
  refine clip_bounds_of_bounded_candidates defaultClipSettings renderAll
      [⟨0, 40, some "kept"⟩] 100 (by norm_num [defaultClipSettings]) ?_
      ⟨1, 0, 40, 40, "kept"⟩ ?_
  · intro c hc
    rw [List.mem_singleton] at hc
    subst hc
    norm_num
  · rw [generate_clips_single_kept]
    exact List.mem_singleton_self _

/-- C7 counterexample: when the first selected candidate is dropped (duration
3 below the absolute minimum) and the second is kept, the single emitted clip
carries id 2, not id 1 — ids are not the consecutive sequence starting at 1
that the claim states. -/
theorem clip_id_gap_counterexample :
    (generate_clips_from_analysis defaultClipSettings renderAll
        [⟨0, 3, some "dropped"⟩, ⟨10, 50, some "kept"⟩]).map ClipInfo.id = [2] ∧
      ([2] : List ℕ) ≠ [1] := by
  constructor
  · rw [generate_clips_drop_then_kept]
    rfl
  · decide

/-- C7 amended: each emitted clip's id is one plus the position of its source
candidate in the truncated candidate list (so ids lie in `1..max_clips` and
are strictly increasing along the output), but dropped candidates leave gaps:
the k-th output clip need not have id k. -/
theorem clip_ids_from_candidate_index (s : ClipSettings) (r : ℕ → Bool)
    (cs : List GptClip) :
    (∀ info ∈ generate_clips_from_analysis s r cs,
        1 ≤ info.id ∧ info.id ≤ s.max_clips ∧
        ∃ c, cs[info.id - 1]? = some c ∧
          processCandidate s r (info.id - 1) c = some info) ∧
    (generate_clips_from_analysis s r cs).Pairwise fun a b => a.id < b.id := by
  constructor
  · intro info hmem
    rcases mem_generate_clips_iff.mp hmem with ⟨i, c, hi, hc, hp⟩
    have hid : info.id = i + 1 := by
      rcases processCandidate_eq_some_iff.mp hp with ⟨_, _, rfl⟩
      rfl
    refine ⟨by omega, by omega, c, ?_, ?_⟩
    · rw [hid]
      simpa using hc
    · rw [hid]
      simpa using hp
  · unfold generate_clips_from_analysis
    refine List.Pairwise.filterMap _ ?_ (pairwise_fst_lt_enumFrom 0 (cs.take s.max_clips))
    intro p q hpq a ha b hb
    rw [Option.mem_def] at ha hb
    have hida : a.id = p.1 + 1 := by
      rcases processCandidate_eq_some_iff.mp ha with ⟨_, _, rfl⟩
      rfl
    have hidb : b.id = q.1 + 1 := by
      rcases processCandidate_eq_some_iff.mp hb with ⟨_, _, rfl⟩
      rfl
    rw [hida, hidb]
    omega

/-- Witness for the amended C7 at the counterexample input: the emitted clip
with id 2 stems from the candidate at index 1 of the candidate list. -/
theorem clip_ids_from_candidate_index_witness :
    1 ≤ (⟨2, 10, 50, 40, "kept"⟩ : ClipInfo).id ∧
      (⟨2, 10, 50, 40, "kept"⟩ : ClipInfo).id ≤ defaultClipSettings.max_clips ∧
      ∃ c, ([⟨0, 3, some "dropped"⟩, ⟨10, 50, some "kept"⟩] :
            List GptClip)[(⟨2, 10, 50, 40, "kept"⟩ : ClipInfo).id - 1]? = some c ∧
        processCandidate defaultClipSettings renderAll
          ((⟨2, 10, 50, 40, "kept"⟩ : ClipInfo).id - 1) c =
            some ⟨2, 10, 50, 40, "kept"⟩ := by
  refine (clip_ids_from_candidate_index defaultClipSettings renderAll
      [⟨0, 3, some "dropped"⟩, ⟨10, 50, some "kept"⟩]).1 ⟨2, 10, 50, 40, "kept"⟩ ?_
  rw [generate_clips_drop_then_kept]
  exact List.mem_singleton_self _

/-- C8: every emitted clip's description is the candidate's description
(defaulted to "AI-selected clip" when absent) truncated to 200 characters
with a trailing ellipsis when longer than 200 characters, and carried over
unchanged when 200 characters or shorter. -/
theorem description_truncation (s : ClipSettings) (r : ℕ → Bool)
    (cs : List GptClip) (info : ClipInfo)
    (hmem : info ∈ generate_clips_from_analysis s r cs) :
    ∃ i c, cs[i]? = some c ∧ info.id = i + 1 ∧
      ((c.description.getD "AI-selected clip").length > 200 →
        info.description = (c.description.getD "AI-selected clip").take 200 ++ "...") ∧
      ((c.description.getD "AI-selected clip").length ≤ 200 →
        info.description = c.description.getD "AI-selected clip") := by
  rcases mem_generate_clips_iff.mp hmem with ⟨i, c, _, hc, hp⟩
  rcases processCandidate_eq_some_iff.mp hp with ⟨_, _, rfl⟩
  refine ⟨i, c, hc, rfl, ?_, ?_⟩
  · intro hlen
    show truncateDescription _ = _
    rw [truncateDescription, if_pos hlen]
  · intro hlen
    show truncateDescription _ = _
    rw [truncateDescription, if_neg (by omega)]

/-- Witness for C8 at a concrete input: the emitted clip for the candidate
`(0, 40)` with the 4-character description "kept" carries that description
unchanged. -/
theorem description_truncation_witness :
    ∃ i c, ([⟨0, 40, some "kept"⟩] : List GptClip)[i]? = some c ∧
      (⟨1, 0, 40, 40, "kept"⟩ : ClipInfo).id = i + 1 ∧
      ((c.description.getD "AI-selected clip").length > 200 →
        (⟨1, 0, 40, 40, "kept"⟩ : ClipInfo).description =
          (c.description.getD "AI-selected clip").take 200 ++ "...") ∧
      ((c.description.getD "AI-selected clip").length ≤ 200 →
        (⟨1, 0, 40, 40, "kept"⟩ : ClipInfo).description =
          c.description.getD "AI-selected clip") := by
  refine description_truncation defaultClipSettings renderAll
      [⟨0, 40, some "kept"⟩] ⟨1, 0, 40, 40, "kept"⟩ ?_
  rw [generate_clips_single_kept]
  exact List.mem_singleton_self _

/-- C3: the content-analysis invocation in `process_video` passes the
transcript together with the clip-settings constraint hint, but the callee
`analyze_content` accepts only the transcript, so the call never binds: on
every run whose preparation and transcription succeed the interpreter raises
`TypeError` and `process_video` returns the structured failure result —
the analysis never completes and its clip list is never used. -/
theorem analyze_content_call_always_raises (env : PipelineEnv) (s : ClipSettings)
    (video_path : String)
    (hprep : env.video_prep_success = true) (htr : env.transcript_error = none) :
    pythonCallOk analyze_content_params process_video_analyze_content_args = false ∧
    process_video env s video_path =
      ProcessVideoResult.err analyze_content_TypeError video_path env.now := by
  refine ⟨rfl, ?_⟩
  unfold process_video
  rw [if_neg (by simp [hprep]), htr]
  rfl

/-- Witness for C3: in a run whose collaborators all succeed, `process_video`
still returns the `TypeError` failure result. -/
theorem analyze_content_call_always_raises_witness :
    pythonCallOk analyze_content_params process_video_analyze_content_args = false ∧
    process_video sampleEnv defaultClipSettings "video.mp4" =
      ProcessVideoResult.err analyze_content_TypeError "video.mp4" sampleEnv.now :=
  analyze_content_call_always_raises sampleEnv defaultClipSettings "video.mp4" rfl rfl

/-- C9: whenever a stage of `process_video` fails — video preparation,
transcription, or content analysis — the run returns the structured failure
value (the `err` constructor, carrying the error string, the video path and
the timestamp) instead of letting an exception escape the pipeline
boundary. -/
theorem stage_failure_structured_result (env : PipelineEnv) (s : ClipSettings)
    (video_path : String)
    (h : env.video_prep_success = false ∨ env.transcript_error.isSome ∨
      env.analysis.error.isSome) :
    ∃ e, process_video env s video_path =
      ProcessVideoResult.err e video_path env.now := by
  unfold process_video
  by_cases hprep : env.video_prep_success = false
  · rw [if_pos hprep]
    exact ⟨_, rfl⟩
  · rw [if_neg hprep]
    cases htr : env.transcript_error with
    | some e => exact ⟨_, rfl⟩
    | none =>
      have hcall : pythonCallOk analyze_content_params
          process_video_analyze_content_args = false := rfl
      rw [hcall]
      exact ⟨_, rfl⟩

/-- Witness for C9: a run whose video-preparation stage fails returns a
structured failure result. -/
theorem stage_failure_structured_result_witness :
    ∃ e, process_video failedPrepEnv defaultClipSettings "video.mp4" =
      ProcessVideoResult.err e "video.mp4" failedPrepEnv.now :=
  stage_failure_structured_result failedPrepEnv defaultClipSettings "video.mp4"
    (Or.inl rfl)

/-- C10: the `WhisperTranscriber.format_srt_time` method and the module-level
`format_srt_time` of `overlay_subtitles.py` are extensionally equal: for
every non-negative seconds value they produce the identical
`HH:MM:SS,mmm` string. -/
theorem format_srt_time_equivalence (seconds : ℚ) (h : 0 ≤ seconds) :
    WhisperTranscriber.format_srt_time seconds =
      OverlaySubtitles.format_srt_time seconds := rfl

/-- Witness for C10 at a concrete non-negative input. -/
theorem format_srt_time_equivalence_witness :
    0 ≤ (7322489 / 1000 : ℚ) ∧
      WhisperTranscriber.format_srt_time (7322489 / 1000) =
        OverlaySubtitles.format_srt_time (7322489 / 1000) :=
  ⟨by norm_num, format_srt_time_equivalence (7322489 / 1000) (by norm_num)⟩

end AIVideoEditor
